import Mathlib

/-!
# A shallow embedding of cmpdc's session-state synchronizer (src/cmpdc.py)

This file models, in Lean, the parts of `cmpdc.py` that implement the
update/suppression state machine of the MPD client:

* the pure formatters `format_duration` (lines 41-50) and `format_song`
  (lines 53-64);
* the per-subsystem update coroutines `update_progress` (546-571),
  `update_player` (573-663), `update_playlist` (665-679), `update_options`
  (681-686), `update_stored_playlist` (688-695) and `show_stored_playlist`
  (697-705);
* the dispatch loops `check_for_updates` (523-544) and `check_for_progress`
  (511-521);
* the suppression-arming UI handlers `dropEvent_new` (395-401) and the
  delete branch of `keyPressEvent_new` (406-419).

Modelling conventions:

* MPD responses are Python dicts of strings; they are embedded as structures
  of `Option String` fields restricted to the keys the program reads.
  A fetch that raises is `none` in the `Env` (environment/oracle) record.
* A Python exception that escapes a coroutine is the `crashed` flag of
  `StepResult`; state mutations performed before the raise persist, as in
  Python.  An exception inside a function decorated with `@asyncSlot` and
  invoked without `await` (e.g. `show_stored_playlist` at line 695,
  `center_on_current_song` at line 596) is swallowed by the event loop and
  does not propagate to the caller, so it never sets `crashed`.
* `int(float(s))` and `int(s)` are embedded as `parsePyFloatInt` and
  `parsePyInt`; they agree with Python on optionally signed decimal
  literals (`"12"`, `"215.000"`, `"-2.7"`, `".5"`) and reject everything
  that raises `ValueError` there; exotic float spellings (exponents,
  `inf`/`nan`, underscores, surrounding whitespace), which MPD never
  produces, are modelled as failures.
* Qt widgets are embedded by the fields of `UIState` that the modelled code
  writes; painting, scrolling, the mutagen tag dump (`lbl_current_info`)
  and the `QImage` construction at lines 659-663 are not modelled beyond
  storing the chosen cover bytes.  Cover lookup through mutagen tags and
  the album-directory scan (lines 613-648), which involve the local
  filesystem and issue no MPD queries, are abstracted as the oracle
  `Env.fsCover`.
* MPD queries issued and desktop notices sent are collected in a `Log`,
  together with a count of the `takeItem`/`addItem` operations performed on
  the queue widget (to make "rebuilds" observable even when the rebuilt
  content is identical).
-/

/-- The MPD protocol queries the modelled code can issue. -/
inductive Query where
  | status : Query
  | currentsong : Query
  | playlistinfo : Query
  | listplaylists : Query
  | listplaylistinfo : String → Query
  | albumart : String → Query
  | readpicture : String → Query
deriving DecidableEq, Repr

/-- Mutating MPD commands issued by the queue-widget handlers. -/
inductive Cmd where
  | move : Nat → Nat → Cmd
  | deleteOne : Nat → Cmd
  | deleteRange : Nat → Nat → Cmd
deriving DecidableEq, Repr

/-- A song dict, restricted to the keys the program reads
(`track`, `title`, `artist`, `album`, `duration`, `file`, `pos`).
`none` is an absent key. -/
structure Song where
  track : Option String := none
  title : Option String := none
  artist : Option String := none
  album : Option String := none
  duration : Option String := none
  file : Option String := none
  pos : Option String := none
deriving DecidableEq, Repr

/-- A `status` dict, restricted to the keys the program reads. -/
structure Status where
  state : Option String := none
  elapsed : Option String := none
  duration : Option String := none
  song : Option String := none
  playlistlength : Option String := none
  random : Option String := none
deriving DecidableEq, Repr

/-- The environment: the responses the MPD server (and the filesystem
cover lookup) would give to each query.  `none` models a raised
exception (connection error, missing response). -/
structure Env where
  statusR : Option Status
  currentsongR : Option Song
  playlistinfoR : Option (List Song)
  listplaylistsR : Option (List String)
  listplaylistinfoR : String → Option (List Song)
  albumartR : String → Option Nat
  readpictureR : String → Option Nat
  fsCover : String → Option Nat

/-- The Qt widget state written by the modelled code (init_gui defaults,
lines 231-323; a fresh `QSlider` has maximum 99 and an empty list widget
has current row -1). -/
structure UIState where
  btn_toggle_text : String := "Play"
  lbl_current_title : String := "—"
  lbl_current_artist_album : String := "—  •  —"
  lst_queue : List String := []
  lst_queue_current_row : Int := -1
  lbl_progress : String := "— / —"
  sld_progress_value : Int := 0
  sld_progress_max : Int := 99
  btn_random_checked : Bool := false
  cmb_playlist_items : List String := []
  cmb_playlist_current : String := ""
  lst_playlist : List String := []
  cvr_current : Option Nat := none
deriving DecidableEq, Repr

/-- The `MainWindow` state: the five attributes initialised at lines
200-205 plus the widgets. -/
structure AppState where
  skip_playlist_update : Bool := false
  last_currentsong : Option Song := none
  skip_progress_update : Bool := false
  song_progress : Option Int := none
  playlists : Option (List String) := none
  ui : UIState := {}
deriving DecidableEq, Repr

/-- The initial state after `MainWindow.__init__` and `init_gui`. -/
def initState : AppState := {}

/-- Observable effects of a step: MPD queries issued (in order), desktop
notices sent (title, artist-album line), and the number of
`takeItem`/`addItem` operations performed on the queue widget. -/
structure Log where
  queries : List Query := []
  sent_notices : List (String × String) := []
  queue_ops : Nat := 0
deriving DecidableEq, Repr

def Log.append (a b : Log) : Log :=
  ⟨a.queries ++ b.queries, a.sent_notices ++ b.sent_notices,
   a.queue_ops + b.queue_ops⟩

/-- Result of running one update coroutine: the new state, the effects,
and whether an exception escaped it (`crashed`). -/
structure StepResult where
  st : AppState
  log : Log
  crashed : Bool
deriving DecidableEq, Repr

/-- Sequencing in `check_for_updates`: a raised exception aborts the rest
of the loop body (there is no try/except around the `await`s at lines
536-544). -/
def StepResult.andThen (r : StepResult) (f : AppState → StepResult) : StepResult :=
  if r.crashed then r
  else
    let r2 := f r.st
    ⟨r2.st, r.log.append r2.log, r2.crashed⟩

/- ### Python numeric parsing -/

def digitsToNat (l : List Char) : Nat :=
  l.foldl (fun a c => a * 10 + (c.toNat - 48)) 0

def allDigits (l : List Char) : Bool :=
  l.all (fun c => c.isDigit)

/-- Embedding of Python `int(float(s))`: optionally signed decimal literal,
truncated toward zero (the fractional digits are discarded). -/
def parsePyFloatInt (str : String) : Option Int :=
  let cs := str.toList
  let sign : Bool := match cs with
    | '-' :: _ => true
    | _ => false
  let rest : List Char := match cs with
    | '-' :: r => r
    | '+' :: r => r
    | r => r
  let intPart := rest.takeWhile (fun c => c.isDigit)
  let rest2 := rest.dropWhile (fun c => c.isDigit)
  match rest2 with
  | [] =>
    if intPart.isEmpty then none
    else some (if sign then -(digitsToNat intPart : Int) else (digitsToNat intPart : Int))
  | '.' :: frac =>
    if allDigits frac && !(intPart.isEmpty && frac.isEmpty) then
      some (if sign then -(digitsToNat intPart : Int) else (digitsToNat intPart : Int))
    else none
  | _ => none

/-- Embedding of Python `int(s)`: optionally signed digit string. -/
def parsePyInt (str : String) : Option Int :=
  let cs := str.toList
  let sign : Bool := match cs with
    | '-' :: _ => true
    | _ => false
  let rest : List Char := match cs with
    | '-' :: r => r
    | '+' :: r => r
    | r => r
  if !rest.isEmpty && allDigits rest then
    some (if sign then -(digitsToNat rest : Int) else (digitsToNat rest : Int))
  else none

/- ### Formatters (lines 41-64) -/

/-- Python `"\x7b:02d\x7d".format(n)`: zero-pad a one-digit non-negative
number to two characters. -/
def pad2 (n : Int) : String :=
  if 0 ≤ n ∧ n < 10 then "0" ++ toString n else toString n

/-- Lines 41-50.  Python `//` and `%` are floor division and modulo, which
for the positive divisors used here coincide with Lean's Euclidean
`Int` division and modulo. -/
def format_duration (duration : Int) : String :=
  let h := duration / 3600
  let rest := duration % 3600
  let m := rest / 60
  let s := rest % 60
  if h > 0 then
    toString h ++ ":" ++ pad2 m ++ ":" ++ pad2 s
  else
    pad2 m ++ ":" ++ pad2 s

/-- Lines 53-64.  `none` is the `ValueError` raised by
`int(float(song["duration"]))` when a present `duration` value does not
parse; every absent key falls back to the sentinel (title falls back to
the file path first). -/
def format_song (song : Song) : Option String :=
  let trackS := song.track.getD "—"
  let titleS := song.title.getD (song.file.getD "—")
  let artistS := song.artist.getD "—"
  let albumS := song.album.getD "—"
  match song.duration with
  | none =>
    some (trackS ++ "\t" ++ titleS ++ "\n\t" ++ artistS ++ "  •  " ++
      albumS ++ "  •  " ++ "—")
  | some d =>
    match parsePyFloatInt d with
    | none => none
    | some n =>
      some (trackS ++ "\t" ++ titleS ++ "\n\t" ++ artistS ++ "  •  " ++
        albumS ++ "  •  " ++ format_duration n)


/- ### Update coroutines (lines 511-705) -/

/-- Lines 548-554 (`format_queue_position` inside `update_progress`): on
any `KeyError`/`ValueError` the inner `except` returns the sentinel. -/
def format_queue_position (status : Status) : String :=
  match status.song.bind parsePyInt, status.playlistlength with
  | some n, some len => toString (n + 1) ++ " / " ++ len
  | _, _ => "— / —"

/-- Lines 546-571 (`update_progress`): fetch `status`, parse
`elapsed`/`duration`, set the slider and label; the surrounding
`try`/`except` catches every failure (logging a warning, zeroing the
slider and writing the sentinel label), so this coroutine never lets an
exception escape. -/
def update_progress (env : Env) (s : AppState) : StepResult :=
  let failState : AppState :=
    { s with ui := { s.ui with
        sld_progress_value := 0,
        lbl_progress := "— / —  (— / —)" } }
  match env.statusR with
  | none => ⟨failState, ⟨[.status], [], 0⟩, false⟩
  | some status =>
    match status.elapsed.bind parsePyFloatInt,
          status.duration.bind parsePyFloatInt with
    | some e, some d =>
      ⟨{ s with
          song_progress := some e,
          ui := { s.ui with
            sld_progress_max := d,
            sld_progress_value := e,
            lbl_progress := format_duration e ++ " / " ++ format_duration d ++
              "  (" ++ format_queue_position status ++ ")" } },
        ⟨[.status], [], 0⟩, false⟩
    | _, _ => ⟨failState, ⟨[.status], [], 0⟩, false⟩

/-- Lines 95-103 (`albumart_or_none` with `currentsong` passed): the
`currentsong["file"]` access raises `KeyError` before any query when the
key is absent; everything is caught and resolved to `None`. Returns the
cover and the queries issued. -/
def albumart_or_none (env : Env) (cs : Song) : Option Nat × List Query :=
  match cs.file with
  | none => (none, [])
  | some f => (env.albumartR f, [.albumart f])

/-- Lines 106-114 (`readpicture_or_none` with `currentsong` passed). -/
def readpicture_or_none (env : Env) (cs : Song) : Option Nat × List Query :=
  match cs.file with
  | none => (none, [])
  | some f => (env.readpictureR f, [.readpicture f])

/-- Lines 717-727 (`center_on_current_song` with `currentsong` passed):
sets the queue widget's current row from `int(currentsong["pos"])`; a
missing or unparsable `pos` leaves the row unchanged (the `KeyError` is
guarded at line 722; a `ValueError` dies inside the `@asyncSlot`). -/
def center_on_current_song (cs : Song) (s : AppState) : AppState :=
  match cs.pos.bind parsePyInt with
  | some r => { s with ui := { s.ui with lst_queue_current_row := r } }
  | none => s

/-- Line 30: the `desktop_notification` configuration constant. -/
def desktop_notification : Bool := true

/-- Lines 573-663 (`update_player`): fetch `status`, set the toggle-button
label and `skip_progress_update` from `status["state"]` (a missing key
raises), fetch `currentsong`, and only when it differs from
`last_currentsong` update the labels, send the desktop notice and chase a
cover through `albumart`/`readpicture`/the filesystem.  There is no
`try`/`except`, so a failed fetch escapes to the caller. -/
def update_player (env : Env) (s : AppState) : StepResult :=
  match env.statusR with
  | none => ⟨s, ⟨[.status], [], 0⟩, true⟩
  | some status =>
    match status.state with
    | none => ⟨s, ⟨[.status], [], 0⟩, true⟩
    | some st =>
      let s1 : AppState :=
        if st = "play" then
          { s with skip_progress_update := false,
                   ui := { s.ui with btn_toggle_text := "Pause" } }
        else
          { s with skip_progress_update := true,
                   ui := { s.ui with btn_toggle_text := "Play" } }
      match env.currentsongR with
      | none => ⟨s1, ⟨[.status, .currentsong], [], 0⟩, true⟩
      | some cs =>
        if s1.last_currentsong = some cs then
          ⟨s1, ⟨[.status, .currentsong], [], 0⟩, false⟩
        else
          let title := cs.title.getD (cs.file.getD "—")
          let artist := cs.artist.getD "—"
          let album := cs.album.getD "—"
          let s2 := center_on_current_song cs { s1 with last_currentsong := some cs }
          let s3 : AppState :=
            { s2 with ui := { s2.ui with
                lbl_current_title := title,
                lbl_current_artist_album := artist ++ "  •  " ++ album } }
          let notices := if desktop_notification
            then [(title, artist ++ "  •  " ++ album)] else []
          let (a1, q1) := albumart_or_none env cs
          let (a2, q2) := match a1 with
            | some b => (some b, [])
            | none => readpicture_or_none env cs
          let a3 := match a2, cs.file with
            | none, some f => env.fsCover f
            | x, _ => x
          ⟨{ s3 with ui := { s3.ui with cvr_current := a3 } },
            ⟨[.status, .currentsong] ++ q1 ++ q2, notices, 0⟩, false⟩

/-- Lines 678-679's loop body, together with the `ValueError` that
`format_song` can raise mid-loop: appends formatted tracks to the queue
widget, returning the widget contents, the number of `addItem` calls
performed, and whether the loop died. -/
def addFormatted : List Song → List String → List String × Nat × Bool
  | [], acc => (acc, 0, false)
  | t :: ts, acc =>
    match format_song t with
    | none => (acc, 0, true)
    | some str =>
      let r := addFormatted ts (acc ++ [str])
      (r.1, r.2.1 + 1, r.2.2)

/-- Lines 665-679 (`update_playlist`): an armed `skip_playlist_update`
consumes the flag and returns without fetching; otherwise fetch the
queue (`playlistinfo`, raising on failure before the widget is touched),
remove every row of the queue widget from the last down to row 0, and
append each fetched track formatted. -/
def update_playlist (env : Env) (s : AppState) : StepResult :=
  if s.skip_playlist_update then
    ⟨{ s with skip_playlist_update := false }, ⟨[], [], 0⟩, false⟩
  else
    match env.playlistinfoR with
    | none => ⟨s, ⟨[.playlistinfo], [], 0⟩, true⟩
    | some pl =>
      let clearOps := s.ui.lst_queue.length
      let r := addFormatted pl []
      ⟨{ s with ui := { s.ui with lst_queue := r.1 } },
        ⟨[.playlistinfo], [], clearOps + r.2.1⟩, r.2.2⟩

/-- Lines 681-686 (`update_options`): fetch `status` (no `try`/`except`:
a failure escapes) and mirror `status["random"]` into the Random button
when the key is present. -/
def update_options (env : Env) (s : AppState) : StepResult :=
  match env.statusR with
  | none => ⟨s, ⟨[.status], [], 0⟩, true⟩
  | some status =>
    match status.random with
    | some r =>
      ⟨{ s with ui := { s.ui with btn_random_checked := r = "1" } },
        ⟨[.status], [], 0⟩, false⟩
    | none => ⟨s, ⟨[.status], [], 0⟩, false⟩

/-- Lines 697-705 (`show_stored_playlist`): fetch the selected stored
playlist's tracks and rebuild `lst_playlist`.  It is an `@asyncSlot`
called without `await` (line 695), so an exception inside it (failed
fetch, or a `format_song` `ValueError`) is logged by the event loop and
never crashes the update loop; mutations made before the raise persist. -/
def show_stored_playlist (env : Env) (s : AppState) : StepResult :=
  let name := s.ui.cmb_playlist_current
  match env.listplaylistinfoR name with
  | none => ⟨s, ⟨[.listplaylistinfo name], [], 0⟩, false⟩
  | some pl =>
    let clearOps := s.ui.lst_playlist.length
    let r := addFormatted pl []
    ⟨{ s with ui := { s.ui with lst_playlist := r.1 } },
      ⟨[.listplaylistinfo name], [], clearOps + r.2.1⟩, false⟩

/-- A run of `n` scheduled `show_stored_playlist` tasks, in scheduling
order (each is an `@asyncSlot`, so none can crash the caller). -/
def runShowStored (env : Env) : Nat → AppState → StepResult
  | 0, s => ⟨s, ⟨[], [], 0⟩, false⟩
  | n + 1, s =>
    let r := show_stored_playlist env s
    let r2 := runShowStored env n r.st
    ⟨r2.st, r.log.append r2.log, false⟩

/-- Lines 688-695 (`update_stored_playlist`): fetch the playlist catalog
(`listplaylists`; each entry's `p["playlist"]` name — the name list is
what the model carries) and refill the combo box.  `cmb_playlist` has
`currentIndexChanged` connected to `show_stored_playlist` (lines
482-484), and Qt emits that signal on the programmatic changes here:
`clear()` moves the index to -1 when the combo held items, and the
first `addItem` moves it from -1 to 0 when the new catalog is
non-empty.  Each emission schedules one `show_stored_playlist` task, and
line 695's explicit call schedules one more; all of them run after this
coroutine's body has refilled the combo (so each queries the then
selected name — the first entry, or the empty string when the catalog
is empty).  The catalog fetch has no `try`/`except`, so its failure
escapes. -/
def update_stored_playlist (env : Env) (s : AppState) : StepResult :=
  match env.listplaylistsR with
  | none => ⟨s, ⟨[.listplaylists], [], 0⟩, true⟩
  | some names =>
    let s1 : AppState :=
      { s with playlists := some names,
               ui := { s.ui with
                 cmb_playlist_items := names,
                 cmb_playlist_current := names.headD "" } }
    let invocations : Nat :=
      (if s.ui.cmb_playlist_items.isEmpty then 0 else 1) +
      (if names.isEmpty then 0 else 1) + 1
    let r := runShowStored env invocations s1
    ⟨r.st, Log.append ⟨[.listplaylists], [], 0⟩ r.log, false⟩

/- ### Dispatch loops (lines 511-544) -/

/-- Line 521: the ticker's `asyncio.sleep(1)` period, in seconds. -/
def check_for_progress_period : Nat := 1

/-- Lines 514-521, one iteration of `check_for_progress`: when
`skip_progress_update` is armed the tick does nothing at all; otherwise
it runs `update_progress`.  The surrounding `try`/`except` means a tick
never crashes the ticker loop. -/
def check_for_progress_tick (env : Env) (s : AppState) : StepResult :=
  if s.skip_progress_update then ⟨s, ⟨[], [], 0⟩, false⟩
  else update_progress env s

def stepIf (c : Bool) (f : AppState → StepResult) (r : StepResult) : StepResult :=
  if c then r.andThen f else r

/-- Lines 534-544, the body of `check_for_updates` for one notification
batch (a list of dirty subsystem names): `player` triggers
`update_player` then `update_progress`; `options`, `playlist` and
`stored_playlist` trigger their updates.  There is no `try`/`except`, so
the first escaping exception aborts the rest of the body (and, in the
program, the whole `async for` loop). -/
def processBatch (env : Env) (batch : List String) (s : AppState) : StepResult :=
  let r0 : StepResult := ⟨s, ⟨[], [], 0⟩, false⟩
  let r1 := stepIf (batch.contains "player")
    (fun st => (update_player env st).andThen (update_progress env)) r0
  let r2 := stepIf (batch.contains "options") (update_options env) r1
  let r3 := stepIf (batch.contains "playlist") (update_playlist env) r2
  stepIf (batch.contains "stored_playlist") (update_stored_playlist env) r3

/-- The `async for subsystems in self.client.idle()` loop over a sequence
of delivered batches (each with the server responses current at that
time): an escaping exception terminates the loop, leaving every later
batch unprocessed. -/
def processBatches : List (List String × Env) → AppState → StepResult
  | [], s => ⟨s, ⟨[], [], 0⟩, false⟩
  | (batch, env) :: rest, s =>
    let r := processBatch env batch s
    if r.crashed then r
    else
      let r2 := processBatches rest r.st
      ⟨r2.st, r.log.append r2.log, r2.crashed⟩

/-- An event observed by the `MainWindow` state: a notification batch
delivered to `check_for_updates`, or one ticker iteration.  The two
loops interleave arbitrarily on the single-threaded qasync event loop. -/
inductive Ev where
  | batch : List String → Ev
  | tick : Ev

def stepEv : Ev → Env → AppState → StepResult
  | .batch b, env, s => processBatch env b s
  | .tick, env, s => check_for_progress_tick env s

/-- A run of interleaved batch/tick events (a crash of the update loop
stops the run, as losing `check_for_updates` stops all batch processing). -/
def runEvents : List (Ev × Env) → AppState → StepResult
  | [], s => ⟨s, ⟨[], [], 0⟩, false⟩
  | (e, env) :: rest, s =>
    let r := stepEv e env s
    if r.crashed then r
    else
      let r2 := runEvents rest r.st
      ⟨r2.st, r.log.append r2.log, r2.crashed⟩

/- ### Queue-widget handlers that arm the suppression flag (384-426) -/

/-- `QListWidget.takeItem(i)`: remove row `i`. -/
def takeAt (i : Nat) (l : List String) : List String :=
  l.take i ++ l.drop (i + 1)

/-- Lines 395-401 (`dropEvent_new`): Qt's internal-move drop handler
(`dropEvent_old`, library code) has already reordered the widget —
`dropped` is its result, with `oldRow`/`newRow` the dragged row's
positions before and after; then the handler arms
`skip_playlist_update` and issues `move(old_row, new_row)`. -/
def dropEvent_new (oldRow newRow : Nat) (dropped : List String)
    (s : AppState) : AppState × List Cmd :=
  ({ s with skip_playlist_update := true,
            ui := { s.ui with lst_queue := dropped } },
   [.move oldRow newRow])

/-- Lines 406-419, the `Key_Delete` branch of `keyPressEvent_new`:
given the selected rows sorted in descending order, arm
`skip_playlist_update`, `takeItem` each row, and issue one `delete`
command (a single row, or the contiguous range). -/
def keyPressEvent_delete (rowsDesc : List Nat) (s : AppState) : AppState × List Cmd :=
  let s1 : AppState :=
    { s with skip_playlist_update := true,
             ui := { s.ui with
               lst_queue := rowsDesc.foldl (fun l i => takeAt i l) s.ui.lst_queue } }
  if rowsDesc.length = 1 then
    (s1, [.deleteOne (rowsDesc.headD 0)])
  else if rowsDesc.length > 1 then
    (s1, [.deleteRange (rowsDesc.getLastD 0) (rowsDesc.headD 0 + 1)])
  else
    (s1, [])

/- ### Concrete fixtures shared by witnesses and counterexamples -/

def songA : Song :=
  { track := some "1", title := some "Alpha", artist := some "ArtA",
    album := some "AlbA", duration := some "215.000",
    file := some "a/alpha.mp3", pos := some "0" }

def songB : Song :=
  { track := some "2", title := some "Beta", artist := some "ArtB",
    album := some "AlbB", duration := some "100.000",
    file := some "b/beta.mp3", pos := some "1" }

def statusPlay : Status :=
  { state := some "play", elapsed := some "10.000",
    duration := some "200.000", song := some "0",
    playlistlength := some "2", random := some "0" }

def statusPause : Status :=
  { state := some "pause", elapsed := some "10.000",
    duration := some "200.000", song := some "0",
    playlistlength := some "2", random := some "0" }

/-- A fully healthy server environment used as concrete input. -/
def envOk : Env :=
  { statusR := some statusPlay,
    currentsongR := some songA,
    playlistinfoR := some [songA, songB],
    listplaylistsR := some ["p1"],
    listplaylistinfoR := fun _ => some [songB],
    albumartR := fun _ => some 7,
    readpictureR := fun _ => none,
    fsCover := fun _ => none }

/-- All-or-nothing formatting of a track list (the successful runs of the
`for track in playlist: addItem(format_song(track))` loop). -/
def formatAll : List Song → Option (List String)
  | [] => some []
  | t :: ts =>
    match format_song t, formatAll ts with
    | some str, some l => some (str :: l)
    | _, _ => none

/-- Whether an event is free of the `playlist` subsystem tag. -/
def evNoPlaylist : Ev → Bool
  | .tick => true
  | .batch tags => !tags.contains "playlist"

/-- The concrete state reached by one playlist refresh from startup. -/
def sC2 : AppState := (update_playlist envOk initState).st

/-- The idempotent-redelivery state used as concrete input. -/
def sIdem : AppState := { initState with last_currentsong := some songA }

/-- The crashing environment used as concrete C3 input. -/
def envC3 : Env := { envOk with playlistinfoR := none }

/-- The armed-at-startup state used as concrete suppression input. -/
def sArmed : AppState := { initState with skip_playlist_update := true }

/-- Ten seconds of ticker polls followed by an unrelated player batch. -/
def evsC4 : List (Ev × Env) :=
  List.replicate 10 (Ev.tick, envOk) ++ [(Ev.batch ["player"], envOk)]

/- ### Sanity examples -/

example : format_duration 3661 = "1:01:01" := by decide
example : format_duration 215 = "03:35" := by decide
example : format_duration 3600 = "1:00:00" := by decide
example : parsePyFloatInt "215.000" = some 215 := by decide
example : parsePyFloatInt "-2.7" = some (-2) := by decide
example : parsePyFloatInt "x" = none := by decide
example : parsePyFloatInt "" = none := by decide
example : format_song {} = some "—\t—\n\t—  •  —  •  —" := by decide

/- ### Shared helper lemmas -/

/-- `update_progress` always issues exactly one `status` query and never
lets an exception escape, whatever the response. -/
theorem update_progress_shape (env : Env) (s : AppState) :
    (update_progress env s).log.queries = [.status] ∧
    (update_progress env s).crashed = false := by
  unfold update_progress
  cases env.statusR with
  | none => simp
  | some status =>
    cases he : status.elapsed.bind parsePyFloatInt with
    | none => cases hd : status.duration.bind parsePyFloatInt <;> simp [he, hd]
    | some e => cases hd : status.duration.bind parsePyFloatInt <;> simp [he, hd]

theorem addFormatted_of_formatAll :
    ∀ (pl : List Song) (l acc : List String), formatAll pl = some l →
      addFormatted pl acc = (acc ++ l, pl.length, false) := by
  intro pl
  induction pl with
  | nil =>
    intro l acc h
    simp only [formatAll, Option.some.injEq] at h
    simp [addFormatted, ← h]
  | cons t ts ih =>
    intro l acc h
    simp only [formatAll] at h
    cases hf : format_song t with
    | none => rw [hf] at h; simp at h
    | some str =>
      rw [hf] at h
      cases hts : formatAll ts with
      | none => rw [hts] at h; simp at h
      | some l2 =>
        rw [hts] at h
        simp only [Option.some.injEq] at h
        subst h
        simp [addFormatted, hf, ih l2 (acc ++ [str]) hts]

/-- `center_on_current_song` never touches the suppression flag. -/
theorem center_preserves_spu (cs : Song) (s : AppState) :
    (center_on_current_song cs s).skip_playlist_update = s.skip_playlist_update := by
  unfold center_on_current_song
  cases h : cs.pos.bind parsePyInt <;> simp [h]

/-- `update_player` never touches `skip_playlist_update`. -/
theorem update_player_preserves_spu (env : Env) (s : AppState) :
    (update_player env s).st.skip_playlist_update = s.skip_playlist_update := by
  unfold update_player
  cases hs : env.statusR with
  | none => simp
  | some status =>
    cases hst : status.state with
    | none => simp [hst]
    | some st =>
      cases hcs : env.currentsongR with
      | none => by_cases hp : st = "play" <;> simp [hst, hcs, hp]
      | some cs =>
        by_cases hp : st = "play" <;>
          by_cases hl : s.last_currentsong = some cs <;>
            simp [hst, hcs, hp, hl, center_preserves_spu]

/-- `update_progress` never touches `skip_playlist_update`. -/
theorem update_progress_preserves_spu (env : Env) (s : AppState) :
    (update_progress env s).st.skip_playlist_update = s.skip_playlist_update := by
  unfold update_progress
  cases hs : env.statusR with
  | none => simp
  | some status =>
    cases he : status.elapsed.bind parsePyFloatInt with
    | none => cases hd : status.duration.bind parsePyFloatInt <;> simp [he, hd]
    | some e => cases hd : status.duration.bind parsePyFloatInt <;> simp [he, hd]

/-- `update_options` never touches `skip_playlist_update`. -/
theorem update_options_preserves_spu (env : Env) (s : AppState) :
    (update_options env s).st.skip_playlist_update = s.skip_playlist_update := by
  unfold update_options
  cases hs : env.statusR with
  | none => simp
  | some status => cases hr : status.random <;> simp [hr]

/-- `show_stored_playlist` never touches `skip_playlist_update`. -/
theorem show_stored_preserves_spu (env : Env) (s : AppState) :
    (show_stored_playlist env s).st.skip_playlist_update = s.skip_playlist_update := by
  unfold show_stored_playlist
  cases h : env.listplaylistinfoR s.ui.cmb_playlist_current <;> simp [h]

/-- A run of scheduled `show_stored_playlist` tasks never touches
`skip_playlist_update`. -/
theorem runShowStored_preserves_spu (env : Env) (n : Nat) (s : AppState) :
    (runShowStored env n s).st.skip_playlist_update = s.skip_playlist_update := by
  induction n generalizing s with
  | zero => simp [runShowStored]
  | succ n ih =>
    unfold runShowStored
    simp [ih, show_stored_preserves_spu]

/-- `update_stored_playlist` never touches `skip_playlist_update`. -/
theorem update_stored_preserves_spu (env : Env) (s : AppState) :
    (update_stored_playlist env s).st.skip_playlist_update = s.skip_playlist_update := by
  unfold update_stored_playlist
  cases h : env.listplaylistsR with
  | none => simp
  | some names =>
    simp only [h]
    rw [runShowStored_preserves_spu]

/-- A ticker tick never touches `skip_playlist_update`. -/
theorem tick_preserves_spu (env : Env) (s : AppState) :
    (check_for_progress_tick env s).st.skip_playlist_update = s.skip_playlist_update := by
  unfold check_for_progress_tick
  by_cases h : s.skip_progress_update <;> simp [h, update_progress_preserves_spu]

theorem andThen_preserves_spu (r : StepResult) (f : AppState → StepResult)
    (hf : ∀ s, (f s).st.skip_playlist_update = s.skip_playlist_update) :
    (r.andThen f).st.skip_playlist_update = r.st.skip_playlist_update := by
  unfold StepResult.andThen
  by_cases h : r.crashed <;> simp [h, hf]

theorem stepIf_preserves_spu (c : Bool) (f : AppState → StepResult) (r : StepResult)
    (hf : ∀ s, (f s).st.skip_playlist_update = s.skip_playlist_update) :
    (stepIf c f r).st.skip_playlist_update = r.st.skip_playlist_update := by
  unfold stepIf
  cases c with
  | false => simp
  | true => simp [andThen_preserves_spu r f hf]

/-- A batch that does not contain the `playlist` tag leaves the
suppression flag untouched. -/
theorem processBatch_preserves_spu (env : Env) (batch : List String) (s : AppState)
    (h : batch.contains "playlist" = false) :
    (processBatch env batch s).st.skip_playlist_update = s.skip_playlist_update := by
  have hfalse : ∀ (f : AppState → StepResult) (r : StepResult), stepIf false f r = r :=
    fun f r => rfl
  unfold processBatch
  rw [h]
  rw [stepIf_preserves_spu _ _ _ (update_stored_preserves_spu env)]
  rw [hfalse]
  rw [stepIf_preserves_spu _ _ _ (update_options_preserves_spu env)]
  rw [stepIf_preserves_spu _ _ _ (fun s2 => by
    rw [andThen_preserves_spu _ _ (update_progress_preserves_spu env)]
    exact update_player_preserves_spu env s2)]

/-- Any interleaving of ticks and playlist-free batches leaves an armed
suppression flag armed. -/
theorem runEvents_preserves_spu (evs : List (Ev × Env)) (s : AppState)
    (h : ∀ p ∈ evs, evNoPlaylist p.1 = true)
    (hs : s.skip_playlist_update = true) :
    (runEvents evs s).st.skip_playlist_update = true := by
  induction evs generalizing s with
  | nil => simpa [runEvents]
  | cons p rest ih =>
    have hp : evNoPlaylist p.1 = true := h p (List.mem_cons_self p rest)
    have hrest : ∀ q ∈ rest, evNoPlaylist q.1 = true :=
      fun q hq => h q (List.mem_cons_of_mem p hq)
    have hstep : (stepEv p.1 p.2 s).st.skip_playlist_update = true := by
      cases hev : p.1 with
      | tick => rw [stepEv, tick_preserves_spu]; exact hs
      | batch tags =>
        rw [hev] at hp
        simp only [evNoPlaylist, Bool.not_eq_true'] at hp
        rw [stepEv, processBatch_preserves_spu _ _ _ hp]
        exact hs
    rw [runEvents]
    by_cases hc : (stepEv p.1 p.2 s).crashed <;> simp [hc, hstep, ih _ hrest hstep]

/-- Python's `"\x7b:02d\x7d"` renders every value in [0, 60) as exactly
two characters. -/
theorem pad2_length (n : Int) (h0 : 0 ≤ n) (h60 : n < 60) :
    (pad2 n).length = 2 := by
  have hb : ∀ k : Nat, k < 60 → (pad2 (k : Int)).length = 2 := by decide
  have hn : n = ((n.toNat : Int)) := by omega
  rw [hn]
  exact hb n.toNat (by omega)

/-- An unsuppressed `update_playlist` always issues exactly the
`playlistinfo` query; a suppressed one issues nothing. -/
theorem update_playlist_queries (env : Env) (s : AppState) :
    (update_playlist env s).log.queries =
      (if s.skip_playlist_update then [] else [.playlistinfo]) := by
  unfold update_playlist
  by_cases h : s.skip_playlist_update
  · simp [h]
  · cases hp : env.playlistinfoR <;> simp [h, hp]

/-- Claim C1: with `skip_playlist_update` armed, processing a playlist
notification makes `update_playlist` consume the flag and return at once:
no `playlistinfo` fetch, no widget operation, no emission, and the state
differs only in the flag being reset to idle; consequently the
immediately following playlist notification fetches the queue normally. -/
theorem C1_suppression_correctness (env env2 : Env) (s : AppState)
    (h : s.skip_playlist_update = true) :
    update_playlist env s =
      ⟨{ s with skip_playlist_update := false }, ⟨[], [], 0⟩, false⟩ ∧
    (update_playlist env2 (update_playlist env s).st).log.queries =
      [.playlistinfo] := by
  have h1 : update_playlist env s =
      ⟨{ s with skip_playlist_update := false }, ⟨[], [], 0⟩, false⟩ := by
    unfold update_playlist
    rw [h]
    simp
  refine ⟨h1, ?_⟩
  rw [h1, update_playlist_queries]
  simp

theorem C1_suppression_correctness_witness :
    update_playlist envOk { initState with skip_playlist_update := true } =
      ⟨{ { initState with skip_playlist_update := true } with
           skip_playlist_update := false }, ⟨[], [], 0⟩, false⟩ ∧
    (update_playlist envOk
        (update_playlist envOk
          { initState with skip_playlist_update := true }).st).log.queries =
      [.playlistinfo] :=
  C1_suppression_correctness envOk envOk _ rfl

/-- Claim C5: the suppression flag is a single boolean per subsystem, so
at most one flag is ever outstanding; arming during a drag-reorder and
then again during a delete (two local mutations before any echo arrives)
replaces the armed flag rather than stacking: afterwards the flag is
simply armed, exactly the next playlist notification observed is
swallowed (consuming the flag), and the one after it is processed
normally. -/
theorem C5_arm_replaces (s : AppState) (o1 n1 : Nat) (d1 : List String)
    (rows : List Nat) (env1 env2 : Env) :
    ((dropEvent_new o1 n1 d1 s).1).skip_playlist_update = true ∧
    ((keyPressEvent_delete rows (dropEvent_new o1 n1 d1 s).1).1).skip_playlist_update
      = true ∧
    (update_playlist env1
        (keyPressEvent_delete rows (dropEvent_new o1 n1 d1 s).1).1).log =
      ⟨[], [], 0⟩ ∧
    (update_playlist env1
        (keyPressEvent_delete rows (dropEvent_new o1 n1 d1 s).1).1).st.skip_playlist_update
      = false ∧
    (update_playlist env2
        (update_playlist env1
          (keyPressEvent_delete rows (dropEvent_new o1 n1 d1 s).1).1).st).log.queries
      = [.playlistinfo] := by
  have harm2 :
      ((keyPressEvent_delete rows (dropEvent_new o1 n1 d1 s).1).1).skip_playlist_update
        = true := by
    unfold keyPressEvent_delete dropEvent_new
    by_cases h1 : rows.length = 1
    · simp [h1]
    · by_cases h2 : rows.length > 1 <;> simp [h1, h2]
  have hsw : update_playlist env1
      (keyPressEvent_delete rows (dropEvent_new o1 n1 d1 s).1).1 =
      ⟨{ (keyPressEvent_delete rows (dropEvent_new o1 n1 d1 s).1).1 with
           skip_playlist_update := false }, ⟨[], [], 0⟩, false⟩ := by
    unfold update_playlist
    rw [harm2]
    simp
  refine ⟨by unfold dropEvent_new; simp, harm2, by rw [hsw], by rw [hsw], ?_⟩
  rw [hsw, update_playlist_queries]
  simp

theorem C5_arm_replaces_witness :
    ((dropEvent_new 0 1 ["x"] initState).1).skip_playlist_update = true ∧
    ((keyPressEvent_delete [0] (dropEvent_new 0 1 ["x"] initState).1).1).skip_playlist_update
      = true ∧
    (update_playlist envOk
        (keyPressEvent_delete [0] (dropEvent_new 0 1 ["x"] initState).1).1).log =
      ⟨[], [], 0⟩ ∧
    (update_playlist envOk
        (keyPressEvent_delete [0] (dropEvent_new 0 1 ["x"] initState).1).1).st.skip_playlist_update
      = false ∧
    (update_playlist envOk
        (update_playlist envOk
          (keyPressEvent_delete [0] (dropEvent_new 0 1 ["x"] initState).1).1).st).log.queries
      = [.playlistinfo] :=
  C5_arm_replaces initState 0 1 ["x"] [0] envOk envOk

/-- Claim C9 counterexample: a song whose `duration` value is present but
malformed makes `format_song` raise (`int(float("x"))` is a
`ValueError`), so formatting is not total on all song mappings. -/
theorem C9_counterexample :
    format_song { duration := some "x" } = none := by decide

/-- Claim C9 (amended): formatting never fails on an absent field — every
absent field among track, title, artist, album and duration is rendered
as the sentinel, with title falling back to the file path before the
sentinel — and a present duration that parses as a float also formats;
formatting fails exactly when a present duration value does not parse
(the only raising site is `int(float(song["duration"]))`). -/
theorem C9_sentinel_substitution :
    (∀ song : Song, song.duration = none →
      format_song song = some (song.track.getD "—" ++ "\t" ++
        song.title.getD (song.file.getD "—") ++ "\n\t" ++
        song.artist.getD "—" ++ "  •  " ++ song.album.getD "—" ++
        "  •  " ++ "—")) ∧
    (∀ (song : Song) (d : String) (n : Int), song.duration = some d →
      parsePyFloatInt d = some n →
      format_song song = some (song.track.getD "—" ++ "\t" ++
        song.title.getD (song.file.getD "—") ++ "\n\t" ++
        song.artist.getD "—" ++ "  •  " ++ song.album.getD "—" ++
        "  •  " ++ format_duration n)) ∧
    (∀ song : Song, (format_song song).isSome ↔
      ∀ d : String, song.duration = some d → (parsePyFloatInt d).isSome) := by
  refine ⟨?_, ?_, ?_⟩
  · intro song h
    unfold format_song
    rw [h]
  · intro song d n hd hn
    unfold format_song
    rw [hd]
    simp [hn]
  · intro song
    cases hd : song.duration with
    | none => simp [format_song, hd]
    | some d =>
      cases hn : parsePyFloatInt d with
      | none => simp [format_song, hd, hn]
      | some n => simp [format_song, hd, hn]

theorem C9_sentinel_substitution_witness :
    format_song { title := some "T", file := some "f.mp3" } =
      some (Option.none.getD "—" ++ "\t" ++
        (Option.some "T").getD ((Option.some "f.mp3").getD "—") ++ "\n\t" ++
        Option.none.getD "—" ++ "  •  " ++ Option.none.getD "—" ++
        "  •  " ++ "—") :=
  C9_sentinel_substitution.1 { title := some "T", file := some "f.mp3" } rfl

/-- Claim C10: for every non-negative duration `d`, `format_duration d`
is `h:mm:ss` (hours unpadded, minutes and seconds two digits) exactly
when `d ≥ 3600` and `mm:ss` (both two digits) otherwise, where the
displayed hours, minutes and seconds decode back to `d` via
`h * 3600 + m * 60 + s`. -/
theorem C10_format_duration_shape (d : Int) (hd : 0 ≤ d) :
    ∃ h m s : Int,
      0 ≤ h ∧ 0 ≤ m ∧ m < 60 ∧ 0 ≤ s ∧ s < 60 ∧
      h * 3600 + m * 60 + s = d ∧
      (0 < h ↔ 3600 ≤ d) ∧
      (pad2 m).length = 2 ∧ (pad2 s).length = 2 ∧
      format_duration d =
        (if 0 < h then toString h ++ ":" ++ pad2 m ++ ":" ++ pad2 s
         else pad2 m ++ ":" ++ pad2 s) := by
  refine ⟨d / 3600, d % 3600 / 60, d % 3600 % 60,
    ?_, ?_, ?_, ?_, ?_, ?_, ?_, ?_, ?_, ?_⟩
  · omega
  · omega
  · omega
  · omega
  · omega
  · omega
  · omega
  · exact pad2_length _ (by omega) (by omega)
  · exact pad2_length _ (by omega) (by omega)
  · rfl

theorem C10_format_duration_shape_witness :
    ∃ h m s : Int,
      0 ≤ h ∧ 0 ≤ m ∧ m < 60 ∧ 0 ≤ s ∧ s < 60 ∧
      h * 3600 + m * 60 + s = 3661 ∧
      (0 < h ↔ 3600 ≤ (3661 : Int)) ∧
      (pad2 m).length = 2 ∧ (pad2 s).length = 2 ∧
      format_duration 3661 =
        (if 0 < h then toString h ++ ":" ++ pad2 m ++ ":" ++ pad2 s
         else pad2 m ++ ":" ++ pad2 s) :=
  C10_format_duration_shape 3661 (by decide)

/-- `center_on_current_song` never touches the progress-skip flag. -/
theorem center_preserves_progress_flag (cs : Song) (s : AppState) :
    (center_on_current_song cs s).skip_progress_update = s.skip_progress_update := by
  unfold center_on_current_song
  cases h : cs.pos.bind parsePyInt <;> simp [h]

/-- After `update_player` sees a status whose `state` is `st`, the
progress-skip flag is down exactly when `st` is `play` (lines 579-584),
whatever else the update did. -/
theorem update_player_progress_flag (env : Env) (s : AppState) (status : Status)
    (st : String) (hs : env.statusR = some status) (hst : status.state = some st) :
    (update_player env s).st.skip_progress_update =
      (if st = "play" then false else true) := by
  unfold update_player
  rw [hs]
  cases hcs : env.currentsongR with
  | none => by_cases hp : st = "play" <;> simp [hst, hp]
  | some cs =>
    by_cases hp : st = "play" <;>
      by_cases hl : s.last_currentsong = some cs <;>
        simp [hst, hcs, hp, hl, center_preserves_progress_flag]

/-- Claim C6: the ticker runs on the fixed 1-second `asyncio.sleep`
period; a tick with `skip_progress_update` armed performs no fetch and
changes nothing, a tick with it unarmed fetches `status`, and after any
player update the flag is unarmed exactly when the fetched state is
`play` — so the ticker is dormant in every non-playing state. -/
theorem C6_ticker_dormancy (env env2 : Env) (s s2 s3 : AppState)
    (status : Status) (st : String)
    (h : s.skip_progress_update = true)
    (h2 : s2.skip_progress_update = false)
    (hs : env2.statusR = some status) (hst : status.state = some st) :
    check_for_progress_period = 1 ∧
    check_for_progress_tick env s = ⟨s, ⟨[], [], 0⟩, false⟩ ∧
    (check_for_progress_tick env s2).log.queries = [.status] ∧
    ((update_player env2 s3).st.skip_progress_update = false ↔ st = "play") := by
  refine ⟨rfl, ?_, ?_, ?_⟩
  · unfold check_for_progress_tick
    rw [h]
    simp
  · unfold check_for_progress_tick
    rw [h2]
    simpa using (update_progress_shape env s2).1
  · rw [update_player_progress_flag env2 s3 status st hs hst]
    by_cases hp : st = "play" <;> simp [hp]

theorem C6_ticker_dormancy_witness :
    check_for_progress_period = 1 ∧
    check_for_progress_tick envOk { initState with skip_progress_update := true } =
      ⟨{ initState with skip_progress_update := true }, ⟨[], [], 0⟩, false⟩ ∧
    (check_for_progress_tick envOk initState).log.queries = [.status] ∧
    ((update_player envOk initState).st.skip_progress_update = false ↔
      "play" = "play") :=
  C6_ticker_dormancy envOk envOk { initState with skip_progress_update := true }
    initState initState statusPlay "play" rfl rfl rfl rfl

/-- Claim C7: an unsuppressed playlist refresh removes every previous
row of the queue view and appends exactly the formatted entries of the
freshly fetched queue, in fetch order, issuing exactly one
`playlistinfo` query — and a `playlist`-tagged batch with no arm
outstanding performs exactly one such rebuild. -/
theorem C7_queue_order_fidelity (env : Env) (s : AppState) (pl : List Song)
    (fmtd : List String)
    (hskip : s.skip_playlist_update = false)
    (hpl : env.playlistinfoR = some pl)
    (hfmt : formatAll pl = some fmtd) :
    update_playlist env s =
      ⟨{ s with ui := { s.ui with lst_queue := fmtd } },
        ⟨[.playlistinfo], [], s.ui.lst_queue.length + pl.length⟩, false⟩ ∧
    processBatch env ["playlist"] s =
      ⟨{ s with ui := { s.ui with lst_queue := fmtd } },
        ⟨[.playlistinfo], [], s.ui.lst_queue.length + pl.length⟩, false⟩ := by
  have h1 : update_playlist env s =
      ⟨{ s with ui := { s.ui with lst_queue := fmtd } },
        ⟨[.playlistinfo], [], s.ui.lst_queue.length + pl.length⟩, false⟩ := by
    unfold update_playlist
    rw [hskip, hpl]
    simp [addFormatted_of_formatAll pl fmtd [] hfmt]
  have hfalse : ∀ (f : AppState → StepResult) (r : StepResult), stepIf false f r = r :=
    fun f r => rfl
  have htrue : ∀ (f : AppState → StepResult) (r : StepResult),
      stepIf true f r = r.andThen f := fun f r => rfl
  refine ⟨h1, ?_⟩
  unfold processBatch
  rw [show (["playlist"] : List String).contains "player" = false from rfl,
      show (["playlist"] : List String).contains "options" = false from rfl,
      show (["playlist"] : List String).contains "playlist" = true from rfl,
      show (["playlist"] : List String).contains "stored_playlist" = false from rfl,
      hfalse, hfalse, htrue, hfalse]
  unfold StepResult.andThen
  simp [h1, Log.append]

theorem C7_queue_order_fidelity_witness :
    update_playlist envOk initState =
      ⟨{ initState with ui := { initState.ui with lst_queue :=
           ["1\tAlpha\n\tArtA  •  AlbA  •  03:35",
            "2\tBeta\n\tArtB  •  AlbB  •  01:40"] } },
        ⟨[.playlistinfo], [], 2⟩, false⟩ ∧
    processBatch envOk ["playlist"] initState =
      ⟨{ initState with ui := { initState.ui with lst_queue :=
           ["1\tAlpha\n\tArtA  •  AlbA  •  03:35",
            "2\tBeta\n\tArtB  •  AlbB  •  01:40"] } },
        ⟨[.playlistinfo], [], 2⟩, false⟩ :=
  C7_queue_order_fidelity envOk initState [songA, songB]
    ["1\tAlpha\n\tArtA  •  AlbA  •  03:35",
     "2\tBeta\n\tArtB  •  AlbB  •  01:40"] rfl rfl (by decide)

/-- A successful unsuppressed playlist refresh, as one equation. -/
theorem update_playlist_ok (env : Env) (s : AppState) (pl : List Song)
    (fmtd : List String) (hskip : s.skip_playlist_update = false)
    (hpl : env.playlistinfoR = some pl) (hfmt : formatAll pl = some fmtd) :
    update_playlist env s =
      ⟨{ s with ui := { s.ui with lst_queue := fmtd } },
        ⟨[.playlistinfo], [], s.ui.lst_queue.length + pl.length⟩, false⟩ := by
  unfold update_playlist
  rw [hskip, hpl]
  simp [addFormatted_of_formatAll pl fmtd [] hfmt]

/-- `update_player` when the fetched current song equals the cached one:
only the toggle button and the progress-skip flag are touched, only
`status` and `currentsong` are queried, and nothing is emitted. -/
theorem update_player_unchanged (env : Env) (s : AppState) (status : Status)
    (st : String) (cs : Song) (hs : env.statusR = some status)
    (hst : status.state = some st) (hcs : env.currentsongR = some cs)
    (hl : s.last_currentsong = some cs) :
    update_player env s =
      ⟨(if st = "play"
          then { s with skip_progress_update := false,
                        ui := { s.ui with btn_toggle_text := "Pause" } }
          else { s with skip_progress_update := true,
                        ui := { s.ui with btn_toggle_text := "Play" } }),
        ⟨[.status, .currentsong], [], 0⟩, false⟩ := by
  unfold update_player
  rw [hs]
  by_cases hp : st = "play" <;> simp [hst, hcs, hp, hl]

/-- Claim C2 counterexample: after a playlist refresh, re-delivering the
identical queue triggers a full second rebuild of the queue view — the
refetch happens and every row is removed and re-added (4 widget
operations for a 2-song queue) even though the resulting rows are
identical, because `update_playlist` never compares the fetched queue
with the displayed one. -/
theorem C2_counterexample :
    sC2.ui.lst_queue = (update_playlist envOk sC2).st.ui.lst_queue ∧
    (update_playlist envOk sC2).log.queries = [.playlistinfo] ∧
    (update_playlist envOk sC2).log.queue_ops = 4 := by decide

/-- Claim C2 (amended): re-delivering an identical player snapshot is
idempotent — when the fetched current song equals `last_currentsong`,
`update_player` changes no labels, sends no desktop notice, reloads no
cover and issues no cover queries; but the playlist subsystem is only
content-idempotent: re-delivering an identical queue leaves the queue
view's rows unchanged, yet performs a full clear-and-rebuild (fetch plus
one `takeItem` per old row and one `addItem` per track) each time. -/
theorem C2_idempotence (env : Env) (s : AppState) :
    (∀ (status : Status) (st : String) (cs : Song),
      env.statusR = some status → status.state = some st →
      env.currentsongR = some cs → s.last_currentsong = some cs →
      (update_player env s).log.sent_notices = [] ∧
      (update_player env s).log.queries = [.status, .currentsong] ∧
      (update_player env s).st.ui.lbl_current_title = s.ui.lbl_current_title ∧
      (update_player env s).st.ui.lbl_current_artist_album =
        s.ui.lbl_current_artist_album ∧
      (update_player env s).st.ui.cvr_current = s.ui.cvr_current ∧
      (update_player env s).st.ui.lst_queue = s.ui.lst_queue ∧
      (update_player env s).crashed = false) ∧
    (∀ (pl : List Song) (fmtd : List String),
      s.skip_playlist_update = false → env.playlistinfoR = some pl →
      formatAll pl = some fmtd →
      (update_playlist env (update_playlist env s).st).st.ui.lst_queue =
        (update_playlist env s).st.ui.lst_queue ∧
      (update_playlist env (update_playlist env s).st).log.queue_ops =
        fmtd.length + pl.length ∧
      (update_playlist env (update_playlist env s).st).log.queries =
        [.playlistinfo]) := by
  constructor
  · intro status st cs hs hst hcs hl
    rw [update_player_unchanged env s status st cs hs hst hcs hl]
    by_cases hp : st = "play" <;> simp [hp]
  · intro pl fmtd hskip hpl hfmt
    have h1 := update_playlist_ok env s pl fmtd hskip hpl hfmt
    have h2 := update_playlist_ok env
      ({ s with ui := { s.ui with lst_queue := fmtd } }) pl fmtd hskip hpl hfmt
    rw [h1, h2]
    simp

theorem C2_idempotence_witness :
    ((update_player envOk sIdem).log.sent_notices = [] ∧
      (update_player envOk sIdem).log.queries = [.status, .currentsong] ∧
      (update_player envOk sIdem).st.ui.lbl_current_title =
        sIdem.ui.lbl_current_title ∧
      (update_player envOk sIdem).st.ui.lbl_current_artist_album =
        sIdem.ui.lbl_current_artist_album ∧
      (update_player envOk sIdem).st.ui.cvr_current = sIdem.ui.cvr_current ∧
      (update_player envOk sIdem).st.ui.lst_queue = sIdem.ui.lst_queue ∧
      (update_player envOk sIdem).crashed = false) ∧
    ((update_playlist envOk (update_playlist envOk sIdem).st).st.ui.lst_queue =
        (update_playlist envOk sIdem).st.ui.lst_queue ∧
      (update_playlist envOk (update_playlist envOk sIdem).st).log.queue_ops =
        (["1\tAlpha\n\tArtA  •  AlbA  •  03:35",
          "2\tBeta\n\tArtB  •  AlbB  •  01:40"] : List String).length +
          ([songA, songB] : List Song).length ∧
      (update_playlist envOk (update_playlist envOk sIdem).st).log.queries =
        [.playlistinfo]) :=
  ⟨(C2_idempotence envOk sIdem).1 statusPlay "play" songA rfl rfl rfl rfl,
   (C2_idempotence envOk sIdem).2 [songA, songB]
     ["1\tAlpha\n\tArtA  •  AlbA  •  03:35",
      "2\tBeta\n\tArtB  •  AlbB  •  01:40"] rfl rfl (by decide)⟩

/-- The full effect log of `update_progress` is always exactly one
`status` query: it never emits notices or queue operations. -/
theorem update_progress_log (env : Env) (s : AppState) :
    (update_progress env s).log = ⟨[.status], [], 0⟩ := by
  unfold update_progress
  cases hs : env.statusR with
  | none => simp
  | some status =>
    cases he : status.elapsed.bind parsePyFloatInt with
    | none => cases hd : status.duration.bind parsePyFloatInt <;> simp [he, hd]
    | some e => cases hd : status.duration.bind parsePyFloatInt <;> simp [he, hd]

/-- `update_progress` never touches the queue view or the toggle
button. -/
theorem update_progress_preserves_misc (env : Env) (s : AppState) :
    (update_progress env s).st.ui.lst_queue = s.ui.lst_queue ∧
    (update_progress env s).st.ui.btn_toggle_text = s.ui.btn_toggle_text := by
  unfold update_progress
  cases hs : env.statusR with
  | none => simp
  | some status =>
    cases he : status.elapsed.bind parsePyFloatInt with
    | none => cases hd : status.duration.bind parsePyFloatInt <;> simp [he, hd]
    | some e => cases hd : status.duration.bind parsePyFloatInt <;> simp [he, hd]

/-- An unsuppressed playlist refresh whose fetch fails raises before the
queue view is touched: state unchanged, one query, exception escapes. -/
theorem update_playlist_fetch_error (env : Env) (s : AppState)
    (hskip : s.skip_playlist_update = false) (hpl : env.playlistinfoR = none) :
    update_playlist env s = ⟨s, ⟨[.playlistinfo], [], 0⟩, true⟩ := by
  unfold update_playlist
  rw [hskip, hpl]
  simp

theorem andThen_not_crashed (r : StepResult) (f : AppState → StepResult)
    (h : r.crashed = false) :
    r.andThen f = ⟨(f r.st).st, r.log.append (f r.st).log, (f r.st).crashed⟩ := by
  unfold StepResult.andThen
  rw [h]
  simp

/-- Claim C3 counterexample: a batch tagged `playlist, stored_playlist`
whose `playlistinfo` fetch fails crashes the update loop — the exception
escapes `check_for_updates` — and the `stored_playlist` tag of the same
batch is never refreshed (no `listplaylists` query is issued). -/
theorem C3_counterexample :
    (processBatch { envOk with playlistinfoR := none }
        ["playlist", "stored_playlist"] initState).crashed = true ∧
    (processBatch { envOk with playlistinfoR := none }
        ["playlist", "stored_playlist"] initState).log.queries =
      [.playlistinfo] := by decide

/-- Claim C3 (amended): in a batch tagged `player, playlist` whose
playlist fetch fails, the player update (dispatched first) still
completes and the queue view keeps its last-known-good rows; but the
fetch error is not contained: it escapes, the update loop crashes, and
no later batch is processed.  Only `update_progress` isolates its fetch
errors (its own try/except), so a failing status fetch during a progress
update does not crash anything. -/
theorem C3_partial_failure_isolation (env : Env) (s : AppState) (status : Status)
    (st : String) (cs : Song) (rest : List (List String × Env))
    (hpl : env.playlistinfoR = none)
    (hs : env.statusR = some status) (hst : status.state = some st)
    (hcs : env.currentsongR = some cs) (hl : s.last_currentsong = some cs)
    (hskip : s.skip_playlist_update = false) :
    (processBatch env ["player", "playlist"] s).crashed = true ∧
    (processBatch env ["player", "playlist"] s).st.ui.lst_queue =
      s.ui.lst_queue ∧
    (processBatch env ["player", "playlist"] s).st.ui.btn_toggle_text =
      (if st = "play" then "Pause" else "Play") ∧
    (processBatch env ["player", "playlist"] s).log.queries =
      [.status, .currentsong, .status, .playlistinfo] ∧
    processBatches ((["player", "playlist"], env) :: rest) s =
      processBatch env ["player", "playlist"] s ∧
    (∀ (env2 : Env) (s2 : AppState), env2.statusR = none →
      (update_progress env2 s2).crashed = false) := by
  have hfalse : ∀ (f : AppState → StepResult) (r : StepResult), stepIf false f r = r :=
    fun f r => rfl
  have htrue : ∀ (f : AppState → StepResult) (r : StepResult),
      stepIf true f r = r.andThen f := fun f r => rfl
  have hplayer := update_player_unchanged env s status st cs hs hst hcs hl
  have hpc : (update_player env s).crashed = false := by rw [hplayer]
  have hplog : (update_player env s).log = ⟨[.status, .currentsong], [], 0⟩ := by
    rw [hplayer]
  have hprogc : (update_progress env (update_player env s).st).crashed = false :=
    (update_progress_shape env _).2
  have hskip2 :
      (update_progress env (update_player env s).st).st.skip_playlist_update =
        false := by
    rw [update_progress_preserves_spu, update_player_preserves_spu]
    exact hskip
  have hup : update_playlist env (update_progress env (update_player env s).st).st =
      ⟨(update_progress env (update_player env s).st).st,
        ⟨[.playlistinfo], [], 0⟩, true⟩ :=
    update_playlist_fetch_error env _ hskip2 hpl
  have hbatch : processBatch env ["player", "playlist"] s =
      ⟨(update_progress env (update_player env s).st).st,
        ⟨[.status, .currentsong, .status, .playlistinfo], [], 0⟩, true⟩ := by
    unfold processBatch
    simp only [
      show (["player", "playlist"] : List String).contains "player" = true from rfl,
      show (["player", "playlist"] : List String).contains "options" = false from rfl,
      show (["player", "playlist"] : List String).contains "playlist" = true from rfl,
      show (["player", "playlist"] : List String).contains "stored_playlist" = false
        from rfl,
      hfalse, htrue]
    simp [StepResult.andThen, hpc, hplog, hprogc, hup, update_progress_log,
      Log.append]
  have hqlst : (update_progress env (update_player env s).st).st.ui.lst_queue =
      s.ui.lst_queue := by
    rw [(update_progress_preserves_misc env _).1, hplayer]
    by_cases hp : st = "play" <;> simp [hp]
  have hbtn : (update_progress env (update_player env s).st).st.ui.btn_toggle_text =
      (if st = "play" then "Pause" else "Play") := by
    rw [(update_progress_preserves_misc env _).2, hplayer]
    by_cases hp : st = "play" <;> simp [hp]
  refine ⟨by rw [hbatch], by rw [hbatch]; exact hqlst, by rw [hbatch]; exact hbtn,
    ?_, ?_, ?_⟩
  · rw [hbatch]
  · show (let r := processBatch env ["player", "playlist"] s;
      if r.crashed then r else _) = _
    rw [hbatch]
    simp
  · intro env2 s2 h2
    unfold update_progress
    rw [h2]

theorem C3_partial_failure_isolation_witness :
    (processBatch envC3 ["player", "playlist"] sIdem).crashed = true ∧
    (processBatch envC3 ["player", "playlist"] sIdem).st.ui.lst_queue =
      sIdem.ui.lst_queue ∧
    (processBatch envC3 ["player", "playlist"] sIdem).st.ui.btn_toggle_text =
      (if "play" = "play" then "Pause" else "Play") ∧
    (processBatch envC3 ["player", "playlist"] sIdem).log.queries =
      [.status, .currentsong, .status, .playlistinfo] ∧
    processBatches [(["player", "playlist"], envC3), (["options"], envOk)] sIdem =
      processBatch envC3 ["player", "playlist"] sIdem ∧
    (∀ (env2 : Env) (s2 : AppState), env2.statusR = none →
      (update_progress env2 s2).crashed = false) :=
  C3_partial_failure_isolation envC3 sIdem statusPlay "play" songA
    [(["options"], envOk)] rfl rfl rfl rfl rfl rfl

/-- Claim C4 counterexample: the suppression flag has no timeout — after
ten one-second ticker periods and an unrelated player notification (well
past any "few seconds" expiry window T), the armed flag is still armed,
and the next playlist notification is swallowed (no `playlistinfo`
fetch) rather than processed normally. -/
theorem C4_counterexample :
    (runEvents evsC4 sArmed).st.skip_playlist_update = true ∧
    (update_playlist envOk (runEvents evsC4 sArmed).st).log.queries = [] := by
  decide

/-- Claim C4 (amended): the code has no suppression expiry — an armed
playlist flag survives every interleaving of ticker polls and
playlist-free notification batches, however long, and is consumed
exactly by the next playlist notification actually processed, which is
swallowed (no fetch, no emission) no matter how much wall-clock time has
passed; so a flag is consumed exactly once, but only ever by a matching
notification, never by timeout. -/
theorem C4_no_suppression_expiry (evs : List (Ev × Env)) (s : AppState) (env : Env)
    (h : ∀ p ∈ evs, evNoPlaylist p.1 = true)
    (harm : s.skip_playlist_update = true) :
    (runEvents evs s).st.skip_playlist_update = true ∧
    (update_playlist env (runEvents evs s).st).log = ⟨[], [], 0⟩ ∧
    (update_playlist env (runEvents evs s).st).st.skip_playlist_update = false := by
  have h1 := runEvents_preserves_spu evs s h harm
  refine ⟨h1, ?_, ?_⟩ <;>
  · unfold update_playlist
    rw [h1]
    simp

theorem C4_no_suppression_expiry_witness :
    (runEvents evsC4 sArmed).st.skip_playlist_update = true ∧
    (update_playlist envOk (runEvents evsC4 sArmed).st).log = ⟨[], [], 0⟩ ∧
    (update_playlist envOk (runEvents evsC4 sArmed).st).st.skip_playlist_update =
      false :=
  C4_no_suppression_expiry evsC4 sArmed envOk (by decide) rfl

/-- A `player` batch always chains one `update_progress` (and so one
more `status` query) after a successful `update_player`. -/
theorem processBatch_player_queries (env : Env) (s : AppState)
    (h : (update_player env s).crashed = false) :
    (processBatch env ["player"] s).log.queries =
      (update_player env s).log.queries ++ [.status] := by
  have hfalse : ∀ (f : AppState → StepResult) (r : StepResult), stepIf false f r = r :=
    fun f r => rfl
  have htrue : ∀ (f : AppState → StepResult) (r : StepResult),
      stepIf true f r = r.andThen f := fun f r => rfl
  unfold processBatch
  simp only [show (["player"] : List String).contains "player" = true from rfl,
    show (["player"] : List String).contains "options" = false from rfl,
    show (["player"] : List String).contains "playlist" = false from rfl,
    show (["player"] : List String).contains "stored_playlist" = false from rfl,
    hfalse, htrue]
  simp [StepResult.andThen, h, update_progress_log, Log.append]

/-- `update_player` on a changed current song with a file and an
available `albumart`: it queries `status`, `currentsong` and `albumart`
(no `readpicture` fallback needed), and completes. -/
theorem update_player_changed_queries (env : Env) (s : AppState) (status : Status)
    (st : String) (cs : Song) (f : String) (b : Nat)
    (hs : env.statusR = some status) (hst : status.state = some st)
    (hcs : env.currentsongR = some cs) (hl : s.last_currentsong ≠ some cs)
    (hf : cs.file = some f) (hb : env.albumartR f = some b) :
    (update_player env s).log.queries = [.status, .currentsong, .albumart f] ∧
    (update_player env s).crashed = false := by
  unfold update_player
  rw [hs]
  by_cases hp : st = "play" <;>
    simp [hst, hcs, hp, hl, albumart_or_none, hf, hb]

/-- `show_stored_playlist` always queries exactly the tracks of the
currently selected stored playlist. -/
theorem show_stored_queries (env : Env) (s : AppState) :
    (show_stored_playlist env s).log.queries =
      [.listplaylistinfo s.ui.cmb_playlist_current] := by
  unfold show_stored_playlist
  cases h : env.listplaylistinfoR s.ui.cmb_playlist_current <;> simp [h]

/-- `show_stored_playlist` never changes the combo-box selection. -/
theorem show_stored_preserves_cmb (env : Env) (s : AppState) :
    (show_stored_playlist env s).st.ui.cmb_playlist_current =
      s.ui.cmb_playlist_current := by
  unfold show_stored_playlist
  cases h : env.listplaylistinfoR s.ui.cmb_playlist_current <;> simp [h]

/-- `n` scheduled `show_stored_playlist` tasks issue `n` identical
`listplaylistinfo` queries for the selected name. -/
theorem runShowStored_queries (env : Env) (n : Nat) (s : AppState) :
    (runShowStored env n s).log.queries =
      List.replicate n (.listplaylistinfo s.ui.cmb_playlist_current) := by
  induction n generalizing s with
  | zero => simp [runShowStored]
  | succ n ih =>
    unfold runShowStored
    simp [Log.append, show_stored_queries, ih, show_stored_preserves_cmb,
      List.replicate_succ]

/-- Claim C8 counterexample: a `player` batch does not issue exactly
"status plus current track": from startup (where the current song counts
as changed) the dispatch issues `status`, `currentsong`, a cover-art
query `albumart` — which the spec's query list does not contain — and a
second `status` through the chained progress update. -/
theorem C8_counterexample :
    (processBatch envOk ["player"] initState).log.queries =
      [.status, .currentsong, .albumart "a/alpha.mp3", .status] ∧
    (processBatch envOk ["player"] initState).log.queries ≠
      [.status, .currentsong] := by decide

/-- Claim C8 (amended): per dirty tag the refresh issues — player:
`status` and `currentsong` via `update_player`, plus cover-art queries
(`albumart`, then `readpicture` if needed) when the fetched song differs
from the cached one, plus one more `status` via the chained progress
update; options: `status` only; playlist: `playlistinfo` when
unsuppressed and nothing when suppressed; stored playlist:
`listplaylists` plus one `listplaylistinfo` of the selected playlist per
scheduled `show_stored_playlist` — the explicit call at line 695 and the
`currentIndexChanged` emissions from `clear()` (when the combo held
items) and the first `addItem` (when the new catalog is non-empty), so
two or three duplicate queries in the usual cases; and a tag absent from
the batch triggers none of these queries. -/
theorem C8_tag_query_map (env : Env) (s : AppState) :
    (∀ (status : Status) (st : String) (cs : Song),
      env.statusR = some status → status.state = some st →
      env.currentsongR = some cs → s.last_currentsong = some cs →
      (processBatch env ["player"] s).log.queries =
        [.status, .currentsong, .status]) ∧
    (∀ (status : Status) (st : String) (cs : Song) (f : String) (b : Nat),
      env.statusR = some status → status.state = some st →
      env.currentsongR = some cs → s.last_currentsong ≠ some cs →
      cs.file = some f → env.albumartR f = some b →
      (processBatch env ["player"] s).log.queries =
        [.status, .currentsong, .albumart f, .status]) ∧
    (update_options env s).log.queries = [.status] ∧
    (s.skip_playlist_update = false →
      (update_playlist env s).log.queries = [.playlistinfo]) ∧
    (s.skip_playlist_update = true →
      (update_playlist env s).log.queries = []) ∧
    (∀ names : List String, env.listplaylistsR = some names →
      (update_stored_playlist env s).log.queries =
        .listplaylists ::
          List.replicate
            ((if s.ui.cmb_playlist_items.isEmpty then 0 else 1) +
              (if names.isEmpty then 0 else 1) + 1)
            (.listplaylistinfo (names.headD ""))) ∧
    processBatch env [] s = ⟨s, ⟨[], [], 0⟩, false⟩ := by
  have hfalse : ∀ (f : AppState → StepResult) (r : StepResult), stepIf false f r = r :=
    fun f r => rfl
  refine ⟨?_, ?_, ?_, ?_, ?_, ?_, ?_⟩
  · intro status st cs hs hst hcs hl
    have hu := update_player_unchanged env s status st cs hs hst hcs hl
    rw [processBatch_player_queries env s (by rw [hu]),
      show (update_player env s).log.queries = [.status, .currentsong] from by rw [hu]]
    rfl
  · intro status st cs f b hs hst hcs hl hf hb
    have hu := update_player_changed_queries env s status st cs f b hs hst hcs hl hf hb
    rw [processBatch_player_queries env s hu.2, hu.1]
    rfl
  · unfold update_options
    cases hs : env.statusR with
    | none => simp
    | some status => cases hr : status.random <;> simp [hr]
  · intro h
    rw [update_playlist_queries]
    simp [h]
  · intro h
    rw [update_playlist_queries]
    simp [h]
  · intro names hn
    unfold update_stored_playlist
    rw [hn]
    simp [Log.append, runShowStored_queries]
  · unfold processBatch
    simp only [show (([] : List String)).contains "player" = false from rfl,
      show (([] : List String)).contains "options" = false from rfl,
      show (([] : List String)).contains "playlist" = false from rfl,
      show (([] : List String)).contains "stored_playlist" = false from rfl,
      hfalse]

theorem C8_tag_query_map_witness :
    (processBatch envOk ["player"] initState).log.queries =
      [.status, .currentsong, .albumart "a/alpha.mp3", .status] ∧
    (update_stored_playlist envOk initState).log.queries =
      .listplaylists ::
        List.replicate
          ((if initState.ui.cmb_playlist_items.isEmpty then 0 else 1) +
            (if (["p1"] : List String).isEmpty then 0 else 1) + 1)
          (.listplaylistinfo ((["p1"] : List String).headD "")) :=
  ⟨(C8_tag_query_map envOk initState).2.1 statusPlay "play" songA "a/alpha.mp3" 7
      rfl rfl rfl (by decide) rfl rfl,
    (C8_tag_query_map envOk initState).2.2.2.2.2.1 ["p1"] rfl⟩
